import Mathlib

/-!
Verification development for the GCE guest agent core.

The Go sources are shallowly embedded as Lean functions:

- the manager contract and the per-manager dispatch executed by each
  goroutine of `runUpdate` (main package);
- the platform-specific manager lists built by `runUpdate`;
- the fan-out/join structure of `runUpdate` and the metadata long-poll
  event handler, embedded as event traces constrained by the WaitGroup
  join;
- layered config loading (`parseConfig` over the go-ini collaborator);
- the metadata long-poll handler registered in `runAgent`, with the
  `oldMetadata` / `newMetadata` snapshot pair;
- the event-watcher configuration built in `runAgent`;
- the service lifecycle handlers (`systemdService` and `winService`).

External collaborators (the go-ini library, the metadata client, the
`run.Quiet` command runner) are modelled by their documented contracts;
such definitions say so in their doc comments.
-/

namespace GuestAgent

/-- The `manager` interface of the main package: `diff`, `disabled`,
`set`, `timeout`.  `diff` and `timeout` are embedded as the boolean
values they return during one reconciliation pass; `disabled` is a
function of the platform string; `set` is embedded by the result it
would return when invoked. -/
structure Manager where
  name : String
  disabled : String → Bool
  diff : Bool
  timeout : Bool
  setResult : Except String Unit

/-- Outcome of the per-manager goroutine body in `runUpdate`: skipped
because `disabled` returned true; skipped because neither `timeout` nor
`diff` returned true; or `set` was invoked, succeeding or returning an
error (which is only logged). -/
inductive MgrOutcome where
  | skippedDisabled
  | skippedNoDiff
  | ranOk
  | ranError (msg : String)
deriving Repr, DecidableEq

/-- The body of the goroutine `runUpdate` launches per manager:
if `mgr.disabled(runtime.GOOS)` return; if `!mgr.timeout() && !mgr.diff()`
return; otherwise invoke `mgr.set(ctx)` and log any error. -/
def managerStep (goos : String) (m : Manager) : MgrOutcome :=
  if m.disabled goos then
    MgrOutcome.skippedDisabled
  else if !m.timeout && !m.diff then
    MgrOutcome.skippedNoDiff
  else
    match m.setResult with
    | Except.ok _ => MgrOutcome.ranOk
    | Except.error e => MgrOutcome.ranError e

/-- Whether the goroutine body invokes `set` for this manager. -/
def setInvoked (goos : String) (m : Manager) : Bool :=
  match managerStep goos m with
  | MgrOutcome.ranOk => true
  | MgrOutcome.ranError _ => true
  | _ => false

/-- The concrete manager implementations appended by `runUpdate`. -/
inductive MgrKind where
  | addressMgr
  | wsfcManager
  | winAccountsMgr
  | diagnosticsMgr
  | clockskewMgr
  | osloginMgr
  | accountsMgr
deriving Repr, DecidableEq

/-- The manager list built by `runUpdate`: `addressMgr` always, then a
switch on `runtime.GOOS`: the Windows-specific managers for "windows",
the Unix-specific managers for every other platform. -/
def runUpdateMgrKinds (goos : String) : List MgrKind :=
  let mgrs := [MgrKind.addressMgr]
  if goos = "windows" then
    mgrs ++ [MgrKind.wsfcManager, MgrKind.winAccountsMgr, MgrKind.diagnosticsMgr]
  else
    mgrs ++ [MgrKind.clockskewMgr, MgrKind.osloginMgr, MgrKind.accountsMgr]

/-- The per-manager outcomes of one `runUpdate` pass.  Each goroutine
computes its outcome from its own manager alone; the WaitGroup join
collects all of them. -/
def runUpdateOutcomes (goos : String) (mgrs : List Manager) : List MgrOutcome :=
  mgrs.map (managerStep goos)

/-- Events of one metadata long-poll handler execution: `runUpdate`
launches task `i` (`wg.Add(1)` and `go func`), task `i` finishes
(`wg.Done()` via defer), and the handler assigns
`oldMetadata = newMetadata`. -/
inductive AgentEvent where
  | launch (i : Nat)
  | taskFinish (i : Nat)
  | assignOldMetadata
deriving Repr, DecidableEq

/-- Whether an event belongs to a `runUpdate` pass over `n` managers. -/
def passEventOf (n : Nat) : AgentEvent → Bool
  | AgentEvent.launch i => decide (i < n)
  | AgentEvent.taskFinish i => decide (i < n)
  | AgentEvent.assignOldMetadata => false

/-- Validity of an event order of one `runUpdate` pass over `n` manager
tasks: every task is launched exactly once and finishes exactly once,
each finish comes after its launch, and only pass events occur.  The
traces satisfying this are exactly the executions `runUpdate` admits up
to its return: `wg.Wait()` blocks the return until all `n` deferred
`wg.Done()` calls have happened, so every task finish lies inside the
trace. -/
def validPassTrace (n : Nat) (t : List AgentEvent) : Bool :=
  ((List.range n).all fun i =>
    (t.count (AgentEvent.launch i) == 1) &&
    (t.count (AgentEvent.taskFinish i) == 1) &&
    decide (t.indexOf (AgentEvent.launch i) < t.indexOf (AgentEvent.taskFinish i))) &&
  t.all (passEventOf n)

/-- The event order of one metadata long-poll handler execution that
reaches the update branch: the handler calls `runUpdate(ctx)`
synchronously, and the statement `oldMetadata = newMetadata` follows the
call in program order, hence executes after `runUpdate` has returned,
i.e. after every event of the pass trace. -/
def handlerTrace (t : List AgentEvent) : List AgentEvent :=
  t ++ [AgentEvent.assignOldMetadata]

/-- Modelled from the spec: a data source handed to the go-ini
collaborator — the file may be missing, malformed, or parse to a list of
key/value pairs.  Key case-insensitivity (`Insensitive: true`) is
abstracted by treating keys as already normalized. -/
inductive IniSource where
  | missing
  | malformed
  | parsed (kvs : List (String × String))
deriving Repr, DecidableEq

/-- First value bound to `key` in one parsed source. -/
def lookupKV : List (String × String) → String → Option String
  | [], _ => none
  | (k, v) :: rest, key => if k = key then some v else lookupKV rest key

/-- Modelled from the spec: `ini.LoadSources` with `Loose: true` over a
source list — a missing source is tolerated and skipped, a malformed
source is a fatal load error, and the parsed sources are kept in the
order given. -/
def looseLoad : List IniSource → Except String (List (List (String × String)))
  | [] => Except.ok []
  | IniSource.missing :: rest => looseLoad rest
  | IniSource.malformed :: _rest => Except.error "malformed ini source"
  | IniSource.parsed kvs :: rest =>
    match looseLoad rest with
    | Except.ok files => Except.ok (kvs :: files)
    | Except.error e => Except.error e

/-- Modelled from the spec: the effective value of a key in a loaded
layered configuration — taken from the earliest loaded source that
defines it, per the layered-override contract stated in `parseConfig`
(priority: `file.cfg`, `file.cfg.distro`, `file.cfg.template`). -/
def configLookup : List (List (String × String)) → String → Option String
  | [], _ => none
  | kvs :: rest, key =>
    match lookupKV kvs key with
    | some v => some v
    | none => configLookup rest key

/-- `parseConfig(file)`: load `file`, `file.distro`, `file.template`
in that order, loosely and case-insensitively. -/
def parseConfig (file distro template : IniSource) :
    Except String (List (List (String × String))) :=
  looseLoad [file, distro, template]

/-- Modelled from the spec: the `metadata.Descriptor` of the external
metadata client — an opaque versioned snapshot; only the fields the core
consults are carried.  A Go nil `*metadata.Descriptor` is `Option.none`
at use sites. -/
structure Descriptor where
  projectID : String := ""
  osLoginEnabled : Bool := false
deriving Repr, DecidableEq

/-- Modelled from the spec: `getOSLoginEnabled(md)` — reads the OS Login
enablement flag from the snapshot; only its first returned value is used
by `runAgent`. -/
def getOSLoginEnabled : Option Descriptor → Bool
  | none => false
  | some d => d.osLoginEnabled

/-- Modelled from the spec: the stable watcher ID string of the metadata
long-poll watcher (`mdsEvent.WatcherID`, external package).  The exact
literal is immaterial; what matters is that the two IDs differ. -/
def mdsWatcherID : String := "metadata-watcher"

/-- Modelled from the spec: the stable watcher ID string of the
SSH-trusted-CA watcher (`sshtrustedca.WatcherID`, external package). -/
def sshtrustedcaWatcherID : String := "ssh-trusted-ca-watcher"

/-- The watcher list of the `events.Config` built in `runAgent`: always
the metadata long-poll watcher; the SSH-trusted-CA watcher is appended
only when OS Login is enabled per the startup snapshot. -/
def eventsConfigWatchers (osLoginEnabled : Bool) : List String :=
  let watchers := [mdsWatcherID]
  if osLoginEnabled then watchers ++ [sshtrustedcaWatcherID] else watchers

/-- One metadata long-poll event delivery (`events.EventData`):
`hasError` embeds `Error != nil`, `data` embeds the `Data` payload
(`none` for a nil payload). -/
structure EventData where
  hasError : Bool
  data : Option Descriptor
deriving Repr, DecidableEq

/-- The snapshot pair owned by the main package: `oldMetadata` and
`newMetadata` globals.  A nil pointer is `none`. -/
structure AgentState where
  oldMetadata : Option Descriptor
  newMetadata : Option Descriptor
deriving Repr, DecidableEq

/-- Result of one execution of the subscribed long-poll callback: the
snapshot pair after the execution, whether `runUpdate` was invoked, and
the boolean the callback returns (true keeps the subscription alive). -/
structure HandlerResult where
  state : AgentState
  ranUpdate : Bool
  keepAlive : Bool
deriving Repr, DecidableEq

/-- The callback `runAgent` subscribes for `mdsEvent.LongpollEvent`: an
event with a non-nil error is ignored returning true; an event with nil
data is ignored returning true; otherwise `newMetadata` is set to the
delivered descriptor, `runUpdate` runs, and then `oldMetadata` is
assigned the value of `newMetadata`. -/
def metadataLongpollHandler (st : AgentState) (ev : EventData) : HandlerResult :=
  if ev.hasError then
    { state := st, ranUpdate := false, keepAlive := true }
  else
    match ev.data with
    | none => { state := st, ranUpdate := false, keepAlive := true }
    | some d =>
      let afterNew : AgentState := { st with newMetadata := some d }
      let afterAssign : AgentState := { afterNew with oldMetadata := afterNew.newMetadata }
      { state := afterAssign, ranUpdate := true, keepAlive := true }

/-- The empty descriptor `&metadata.Descriptor\x7b\x7d` assigned to
`oldMetadata` right before `runAgent` subscribes the long-poll
callback. -/
def emptyDescriptor : Descriptor := {}

/-- The snapshot pair at the moment the subscription is registered:
`oldMetadata` was just assigned the empty descriptor; `newMetadata`
holds whatever the best-effort startup fetch produced (possibly
nothing). -/
def postSubscribeInitState (newMd : Option Descriptor) : AgentState :=
  { oldMetadata := some emptyDescriptor, newMetadata := newMd }

/-- The snapshot pair after a sequence of long-poll event deliveries has
been handled by the subscribed callback. -/
def runHandlerSeq (st : AgentState) (evs : List EventData) : AgentState :=
  evs.foldl (fun s ev => (metadataLongpollHandler s ev).state) st

/-- The agent run state after startup: the watcher set built once in
`runAgent` from the startup snapshot, and the snapshot pair as evolved
by delivered events.  No code path touches the watcher list after
`events.New` consumes it. -/
structure AgentRunState where
  watchers : List String
  agent : AgentState
deriving Repr, DecidableEq

/-- The agent run: the watcher list is computed once from the OS Login
flag of the startup snapshot and stays fixed while the subscribed
callback handles any sequence of events. -/
def agentRun (startupOsLogin : Bool) (newMd : Option Descriptor)
    (evs : List EventData) : AgentRunState :=
  { watchers := eventsConfigWatchers startupOsLogin,
    agent := runHandlerSeq (postSubscribeInitState newMd) evs }

end GuestAgent

namespace Service

/-- The `ServiceState` values of the service package.  In the Go const
block `iota` counts the `serviceName` spec line first, so
`StateRunning = 1` and `StateStopped = 2`; `SetState` accepts any
integer of the underlying type. -/
def StateRunning : Int := 1

/-- See `Service.StateRunning`. -/
def StateStopped : Int := 2

/-- The systemd-notify invocations `systemdService` can issue through
`run.Quiet`: the register-time status message, the ready message of
`SetState(StateRunning)`, the stopping message of
`SetState(StateStopped)`. -/
inductive NotifyCmd where
  | statusInit
  | readyRunning
  | statusStopping
deriving Repr, DecidableEq

namespace Unix

/-- `systemdService`: the serviceHandler implementation for systemd.
`systemdContext` records whether we were launched by systemd. -/
structure SystemdService where
  systemdContext : Bool
deriving Repr, DecidableEq

/-- `newServiceHandler`: `systemdContext` is the presence (non-empty
value) of the `NOTIFY_SOCKET` environment variable. -/
def newServiceHandler (notifySocket : String) : SystemdService :=
  { systemdContext := notifySocket != "" }

/-- `systemdService.Register`: a no-op returning nil outside a systemd
context; otherwise one systemd-notify status message through
`run.Quiet`, whose result (a collaborator, embedded as the `runQuiet`
argument) is returned.  The second component lists the notify
invocations issued. -/
def Register (ss : SystemdService) (runQuiet : Except String Unit) :
    Except String Unit × List NotifyCmd :=
  if !ss.systemdContext then
    (Except.ok (), [])
  else
    (runQuiet, [NotifyCmd.statusInit])

/-- `systemdService.SetState`: a no-op returning nil outside a systemd
context; otherwise ready/status for `StateRunning`, stopping/status for
`StateStopped`, and an unknown-state error for anything else. -/
def SetState (ss : SystemdService) (state : Int) (runQuiet : Except String Unit) :
    Except String Unit × List NotifyCmd :=
  if !ss.systemdContext then
    (Except.ok (), [])
  else if state = StateRunning then
    (runQuiet, [NotifyCmd.readyRunning])
  else if state = StateStopped then
    (runQuiet, [NotifyCmd.statusStopping])
  else
    (Except.error ("unknown service state: " ++ toString state), [])

end Unix

namespace Windows

/-- The status records `winService.SetState` sends on the SCM status
channel. -/
inductive ScmStatus where
  | running
  | stopPending
deriving Repr, DecidableEq

/-- `winService.SetState`: sends Running (accepting stop/shutdown) for
`StateRunning`, StopPending for `StateStopped`, and returns an
unknown-state error for anything else.  The second component lists the
status records sent. -/
def SetState (state : Int) : Except String Unit × List ScmStatus :=
  if state = StateRunning then
    (Except.ok (), [ScmStatus.running])
  else if state = StateStopped then
    (Except.ok (), [ScmStatus.stopPending])
  else
    (Except.error ("unknown service state: " ++ toString state), [])

end Windows

end Service

namespace GuestAgent

/-- A concrete manager with `timeout` true and `diff` false, never
disabled (the clock-skew manager behaves like this on a pass where the
period elapsed and nothing changed). -/
def sampleTimeoutMgr : Manager :=
  { name := "clockskew", disabled := fun _ => false, diff := false,
    timeout := true, setResult := Except.ok () }

/-- A concrete eligible manager whose `set` succeeds. -/
def sampleOkMgr : Manager :=
  { name := "accounts", disabled := fun _ => false, diff := true,
    timeout := false, setResult := Except.ok () }

/-- A concrete eligible manager whose `set` returns an error. -/
def sampleErrMgr : Manager :=
  { name := "oslogin", disabled := fun _ => false, diff := true,
    timeout := false, setResult := Except.error "set failed" }

/-- A concrete valid event order of a Unix pass over four manager
tasks, finishes interleaved out of order. -/
def samplePassTraceA : List AgentEvent :=
  [AgentEvent.launch 0, AgentEvent.launch 1, AgentEvent.launch 2,
   AgentEvent.launch 3, AgentEvent.taskFinish 2, AgentEvent.taskFinish 0,
   AgentEvent.taskFinish 3, AgentEvent.taskFinish 1]

/-- Another concrete valid event order of a four-task pass, launches and
finishes interleaved. -/
def samplePassTraceB : List AgentEvent :=
  [AgentEvent.launch 0, AgentEvent.taskFinish 0, AgentEvent.launch 1,
   AgentEvent.launch 2, AgentEvent.launch 3, AgentEvent.taskFinish 3,
   AgentEvent.taskFinish 1, AgentEvent.taskFinish 2]

end GuestAgent

open GuestAgent Service

/-- C1: in a reconciliation pass, `set` is invoked for a manager iff
`disabled(platform)` returns false and `timeout()` or `diff()` returns
true; in particular a disabled manager never has `set` invoked, and a
non-disabled manager with `timeout()` true has `set` invoked even when
`diff()` is false. -/
theorem runUpdate_dispatch_policy (goos : String) (m : Manager) :
    (setInvoked goos m = true ↔
      (m.disabled goos = false ∧ (m.timeout = true ∨ m.diff = true))) ∧
    (m.disabled goos = true → setInvoked goos m = false) ∧
    (m.disabled goos = false → m.timeout = true → setInvoked goos m = true) := by
  unfold setInvoked managerStep
  cases hd : m.disabled goos <;> cases ht : m.timeout <;> cases hdf : m.diff <;>
    cases m.setResult <;> simp

/-- Witness for C1: the timeout-only manager on Linux has `set`
invoked. -/
theorem runUpdate_dispatch_policy_witness :
    setInvoked "linux" sampleTimeoutMgr = true :=
  (runUpdate_dispatch_policy "linux" sampleTimeoutMgr).2.2 rfl rfl

/-- C2: with all three sources present, loading succeeds and the
effective value of every key is the one from `file` if present there,
else from `file.distro`, else from `file.template`; with only
`file.template` present, loading succeeds and its values are used. -/
theorem parseConfig_precedence (f d tp : List (String × String)) (k : String) :
    parseConfig (IniSource.parsed f) (IniSource.parsed d) (IniSource.parsed tp) =
      Except.ok [f, d, tp] ∧
    configLookup [f, d, tp] k =
      ((lookupKV f k).or ((lookupKV d k).or (lookupKV tp k))) ∧
    parseConfig IniSource.missing IniSource.missing (IniSource.parsed tp) =
      Except.ok [tp] ∧
    configLookup [tp] k = lookupKV tp k := by
  refine ⟨rfl, ?_, rfl, ?_⟩
  · simp only [configLookup]
    cases lookupKV f k <;> cases lookupKV d k <;> cases lookupKV tp k <;>
      simp [Option.or]
  · simp only [configLookup]
    cases lookupKV tp k <;> simp

/-- C4: a delivery with a non-nil error leaves `newMetadata` unchanged,
does not invoke `runUpdate`, and returns true (keeping the subscription
alive); a delivery with nil data and nil error does not invoke
`runUpdate` and returns true. -/
theorem longpoll_handler_ignores_bad_events (st : AgentState) (ev : EventData) :
    (ev.hasError = true →
      (metadataLongpollHandler st ev).state.newMetadata = st.newMetadata ∧
      (metadataLongpollHandler st ev).ranUpdate = false ∧
      (metadataLongpollHandler st ev).keepAlive = true) ∧
    (ev.hasError = false → ev.data = none →
      (metadataLongpollHandler st ev).ranUpdate = false ∧
      (metadataLongpollHandler st ev).keepAlive = true) := by
  constructor
  · intro h
    simp [metadataLongpollHandler, h]
  · intro h hdata
    simp [metadataLongpollHandler, h, hdata]

/-- Witness for C4 at concrete deliveries: an error delivery and a
nil-data delivery against the post-subscription state. -/
theorem longpoll_handler_ignores_bad_events_witness :
    (metadataLongpollHandler (postSubscribeInitState none)
        { hasError := true, data := some emptyDescriptor }).state.newMetadata = none ∧
    (metadataLongpollHandler (postSubscribeInitState none)
        { hasError := false, data := none }).ranUpdate = false := by
  constructor
  · exact ((longpoll_handler_ignores_bad_events (postSubscribeInitState none)
      { hasError := true, data := some emptyDescriptor }).1 rfl).1
  · exact ((longpoll_handler_ignores_bad_events (postSubscribeInitState none)
      { hasError := false, data := none }).2 rfl rfl).1

/-- Handling any event sequence preserves a non-nil `oldMetadata`. -/
theorem runHandlerSeq_oldMetadata_isSome (st : AgentState) (evs : List EventData)
    (h : st.oldMetadata.isSome = true) :
    (runHandlerSeq st evs).oldMetadata.isSome = true := by
  induction evs generalizing st with
  | nil => exact h
  | cons ev rest ih =>
    have hstep : ((metadataLongpollHandler st ev).state).oldMetadata.isSome = true := by
      cases he : ev.hasError <;> cases hdata : ev.data <;>
        simp [metadataLongpollHandler, he, hdata, h]
    simpa [runHandlerSeq] using ih ((metadataLongpollHandler st ev).state) hstep

/-- C10: before the long-poll subscription is registered `oldMetadata`
holds a non-nil empty descriptor, and after any sequence of handler
executions it is still non-nil: managers diffing against it never
observe a nil prior snapshot. -/
theorem oldMetadata_never_nil (newMd : Option Descriptor) (evs : List EventData) :
    (postSubscribeInitState newMd).oldMetadata = some emptyDescriptor ∧
    (runHandlerSeq (postSubscribeInitState newMd) evs).oldMetadata.isSome = true :=
  ⟨rfl, runHandlerSeq_oldMetadata_isSome (postSubscribeInitState newMd) evs rfl⟩

/-- C9: the watcher configuration always contains the metadata long-poll
watcher, contains the SSH-trusted-CA watcher iff OS Login is enabled per
the startup snapshot, and this decision is made once at startup: the
active watcher set is unchanged by every later event delivery. -/
theorem watcher_config_policy (md newMd : Option Descriptor) :
    mdsWatcherID ∈ eventsConfigWatchers (getOSLoginEnabled md) ∧
    (sshtrustedcaWatcherID ∈ eventsConfigWatchers (getOSLoginEnabled md) ↔
      getOSLoginEnabled md = true) ∧
    (∀ evs : List EventData,
      (agentRun (getOSLoginEnabled md) newMd evs).watchers =
        eventsConfigWatchers (getOSLoginEnabled md)) := by
  refine ⟨?_, ?_, fun evs => rfl⟩
  · cases getOSLoginEnabled md <;> simp [eventsConfigWatchers]
  · cases getOSLoginEnabled md <;>
      simp [eventsConfigWatchers, mdsWatcherID, sshtrustedcaWatcherID]

/-- Unpacking trace validity: every task of the pass is launched exactly
once and finishes exactly once inside the trace, launches precede
finishes, and the assignment event is not a pass event. -/
theorem validPassTrace_facts (n : Nat) (t : List AgentEvent)
    (hv : validPassTrace n t = true) :
    (∀ i, i < n → AgentEvent.launch i ∈ t ∧ AgentEvent.taskFinish i ∈ t ∧
      t.indexOf (AgentEvent.launch i) < t.indexOf (AgentEvent.taskFinish i) ∧
      t.count (AgentEvent.launch i) = 1 ∧ t.count (AgentEvent.taskFinish i) = 1) ∧
    AgentEvent.assignOldMetadata ∉ t := by
  unfold validPassTrace at hv
  simp only [Bool.and_eq_true, List.all_eq_true, List.mem_range, beq_iff_eq,
    decide_eq_true_eq] at hv
  obtain ⟨hcounts, hmem⟩ := hv
  constructor
  · intro i hi
    obtain ⟨⟨hcl, hcf⟩, hidx⟩ := hcounts i hi
    have hml : AgentEvent.launch i ∈ t := by
      by_contra hno
      rw [List.count_eq_zero.mpr hno] at hcl
      exact absurd hcl (by decide)
    have hmf : AgentEvent.taskFinish i ∈ t := by
      by_contra hno
      rw [List.count_eq_zero.mpr hno] at hcf
      exact absurd hcf (by decide)
    exact ⟨hml, hmf, hidx, hcl, hcf⟩
  · intro hmemAssign
    have := hmem AgentEvent.assignOldMetadata hmemAssign
    simp [passEventOf] at this

/-- C3 (amended): in every handler execution reaching the update branch,
the assignment `oldMetadata = newMetadata` is executed after the
reconciliation fan-out has been launched and after all of the launched
manager tasks have finished: `runUpdate` joins its WaitGroup before
returning, and the assignment follows the `runUpdate` call in program
order. -/
theorem oldMetadata_assign_after_join (n : Nat) (t : List AgentEvent)
    (hv : validPassTrace n t = true) (i : Nat) (hi : i < n) :
    (handlerTrace t).indexOf (AgentEvent.launch i) <
      (handlerTrace t).indexOf AgentEvent.assignOldMetadata ∧
    (handlerTrace t).indexOf (AgentEvent.taskFinish i) <
      (handlerTrace t).indexOf AgentEvent.assignOldMetadata := by
  obtain ⟨hall, hassign⟩ := validPassTrace_facts n t hv
  obtain ⟨hl, hf, _, _, _⟩ := hall i hi
  have hidxa : (t ++ [AgentEvent.assignOldMetadata]).indexOf
      AgentEvent.assignOldMetadata = t.length := by
    rw [List.indexOf_append_of_not_mem hassign]
    simp
  constructor
  · unfold handlerTrace
    rw [hidxa, List.indexOf_append_of_mem hl]
    exact List.indexOf_lt_length.mpr hl
  · unfold handlerTrace
    rw [hidxa, List.indexOf_append_of_mem hf]
    exact List.indexOf_lt_length.mpr hf

/-- Witness for the amended C3 at a concrete four-task Unix pass. -/
theorem oldMetadata_assign_after_join_witness :
    (handlerTrace samplePassTraceA).indexOf (AgentEvent.taskFinish 0) <
      (handlerTrace samplePassTraceA).indexOf AgentEvent.assignOldMetadata :=
  (oldMetadata_assign_after_join 4 samplePassTraceA (by decide) 0 (by decide)).2

/-- C3 is refuted at a concrete input: for the four-task Unix pass with
the interleaving `samplePassTraceA`, the `oldMetadata = newMetadata`
assignment occurs in the handler trace after every task finish, so the
advancement of `oldMetadata` is synchronized with the completion of the
fan-out it follows, contrary to the claim. -/
theorem oldMetadata_assign_counterexample :
    validPassTrace 4 samplePassTraceA = true ∧
    (handlerTrace samplePassTraceA).indexOf (AgentEvent.taskFinish 0) <
      (handlerTrace samplePassTraceA).indexOf AgentEvent.assignOldMetadata ∧
    (handlerTrace samplePassTraceA).indexOf (AgentEvent.taskFinish 1) <
      (handlerTrace samplePassTraceA).indexOf AgentEvent.assignOldMetadata ∧
    (handlerTrace samplePassTraceA).indexOf (AgentEvent.taskFinish 2) <
      (handlerTrace samplePassTraceA).indexOf AgentEvent.assignOldMetadata ∧
    (handlerTrace samplePassTraceA).indexOf (AgentEvent.taskFinish 3) <
      (handlerTrace samplePassTraceA).indexOf AgentEvent.assignOldMetadata := by
  decide

/-- C6: `runUpdate` builds one fixed manager list for the Windows
platform family and a different fixed list for every other platform,
launches one concurrent task per manager, and returns only after all
launched manager tasks have completed: every task finish lies inside
the pass trace closed off by the WaitGroup join at the return. -/
theorem runUpdate_lists_and_join (goos : String) (n : Nat) (t : List AgentEvent)
    (hgoos : goos ≠ "windows") (hv : validPassTrace n t = true) :
    runUpdateMgrKinds "windows" =
      [MgrKind.addressMgr, MgrKind.wsfcManager, MgrKind.winAccountsMgr,
       MgrKind.diagnosticsMgr] ∧
    runUpdateMgrKinds goos =
      [MgrKind.addressMgr, MgrKind.clockskewMgr, MgrKind.osloginMgr,
       MgrKind.accountsMgr] ∧
    (∀ i, i < n → t.count (AgentEvent.launch i) = 1 ∧
      AgentEvent.taskFinish i ∈ t) := by
  refine ⟨rfl, ?_, ?_⟩
  · simp [runUpdateMgrKinds, hgoos]
  · intro i hi
    obtain ⟨hall, _⟩ := validPassTrace_facts n t hv
    obtain ⟨_, hf, _, hc, _⟩ := hall i hi
    exact ⟨hc, hf⟩

/-- Witness for C6 on Linux with a concrete interleaved four-task
trace. -/
theorem runUpdate_lists_and_join_witness :
    runUpdateMgrKinds "linux" =
      [MgrKind.addressMgr, MgrKind.clockskewMgr, MgrKind.osloginMgr,
       MgrKind.accountsMgr] ∧
    AgentEvent.taskFinish 3 ∈ samplePassTraceB := by
  have h := runUpdate_lists_and_join "linux" 4 samplePassTraceB
    (by decide) (by decide)
  exact ⟨h.2.1, (h.2.2 3 (by decide)).2⟩

/-- C5: each slot of a pass computes its outcome from its own manager
alone, so one manager's `set` returning an error never prevents any
other manager's `set` from being invoked or completing; every
dispatch-eligible manager has `set` invoked (the error being only
logged), and the pass always yields one outcome per manager, never
aborting early. -/
theorem set_error_isolation (goos : String) (mgrs mgrsB : List Manager) (i : Nat)
    (hsame : mgrs[i]? = mgrsB[i]?) :
    (runUpdateOutcomes goos mgrs).length = mgrs.length ∧
    (runUpdateOutcomes goos mgrs)[i]? = (runUpdateOutcomes goos mgrsB)[i]? ∧
    (∀ m, mgrs[i]? = some m → m.disabled goos = false →
      (m.timeout || m.diff) = true →
      (runUpdateOutcomes goos mgrs)[i]? = some (managerStep goos m) ∧
      setInvoked goos m = true) := by
  refine ⟨by simp [runUpdateOutcomes], ?_, ?_⟩
  · simp [runUpdateOutcomes, List.getElem?_map, hsame]
  · intro m hm hdis helig
    refine ⟨by simp [runUpdateOutcomes, List.getElem?_map, hm], ?_⟩
    unfold setInvoked managerStep
    cases ht : m.timeout <;> cases hd : m.diff <;> cases m.setResult <;>
      simp [hdis, ht, hd] at helig ⊢

/-- Witness for C5: slot 1 of a concrete pass has the same outcome
whether its sibling slot 0 errors or not, and its `set` is invoked. -/
theorem set_error_isolation_witness :
    (runUpdateOutcomes "linux" [sampleErrMgr, sampleOkMgr])[1]? =
      (runUpdateOutcomes "linux" [sampleTimeoutMgr, sampleOkMgr])[1]? ∧
    setInvoked "linux" sampleOkMgr = true := by
  have h := set_error_isolation "linux" [sampleErrMgr, sampleOkMgr]
    [sampleTimeoutMgr, sampleOkMgr] 1 rfl
  exact ⟨h.2.1, (h.2.2 sampleOkMgr rfl rfl rfl).2⟩

/-- C7 (amended): `SetState` with a state value that is neither Running
nor Stopped fails with an unknown-state error on the Windows handler
and on the systemd handler whenever the process runs under systemd;
outside a systemd context the systemd handler returns success without
any notify interaction, whatever the state value.  No ordering between
`SetState(StateStopped)` and `SetState(StateRunning)` is enforced: the
handlers keep no transition state and both calls succeed in either
order. -/
theorem setState_unknown_state_errors (s : Int) (runQuiet : Except String Unit)
    (hr : s ≠ StateRunning) (hs : s ≠ StateStopped) :
    Windows.SetState s =
      (Except.error ("unknown service state: " ++ toString s), []) ∧
    Unix.SetState { systemdContext := true } s runQuiet =
      (Except.error ("unknown service state: " ++ toString s), []) ∧
    Unix.SetState { systemdContext := false } s runQuiet = (Except.ok (), []) ∧
    (Unix.SetState { systemdContext := true } StateStopped (Except.ok ())).1 =
      Except.ok () ∧
    (Unix.SetState { systemdContext := true } StateRunning (Except.ok ())).1 =
      Except.ok () ∧
    (Windows.SetState StateStopped).1 = Except.ok () ∧
    (Windows.SetState StateRunning).1 = Except.ok () := by
  have hr1 : s ≠ 1 := by simpa [StateRunning] using hr
  have hs2 : s ≠ 2 := by simpa [StateStopped] using hs
  refine ⟨?_, ?_, ?_, ?_, ?_, ?_, ?_⟩ <;>
    simp [Windows.SetState, Unix.SetState, StateRunning, StateStopped, hr1, hs2]

/-- Witness for the amended C7 at the concrete state value 5. -/
theorem setState_unknown_state_errors_witness :
    Windows.SetState 5 =
      (Except.error ("unknown service state: " ++ toString (5 : Int)), []) ∧
    Unix.SetState { systemdContext := true } 5 (Except.ok ()) =
      (Except.error ("unknown service state: " ++ toString (5 : Int)), []) := by
  have h := setState_unknown_state_errors 5 (Except.ok ()) (by decide) (by decide)
  exact ⟨h.1, h.2.1⟩

/-- C7 is refuted at a concrete input: on the systemd handler outside a
systemd context, `SetState` with state value 5 (neither Running nor
Stopped) returns success and performs no notify interaction instead of
failing with an unknown-state error — the early standalone no-op return
precedes the unknown-state check. -/
theorem setState_unknown_standalone_counterexample :
    Unix.SetState { systemdContext := false } 5 (Except.ok ()) =
      (Except.ok (), []) := rfl

/-- C8: with the notify-socket environment variable absent the handler
records a non-systemd context, and then `Register` and `SetState`
perform no service-manager interaction and return success; a notify
announcement is issued only when actually launched under systemd. -/
theorem standalone_service_noop (env : String) (s : Int)
    (runQuiet : Except String Unit) :
    (Unix.newServiceHandler "").systemdContext = false ∧
    ((Unix.newServiceHandler env).systemdContext = false →
      Unix.Register (Unix.newServiceHandler env) runQuiet = (Except.ok (), []) ∧
      Unix.SetState (Unix.newServiceHandler env) s runQuiet = (Except.ok (), [])) ∧
    (∀ ss : Unix.SystemdService,
      ((Unix.Register ss runQuiet).2 ≠ [] → ss.systemdContext = true) ∧
      ((Unix.SetState ss s runQuiet).2 ≠ [] → ss.systemdContext = true)) := by
  refine ⟨?_, ?_, ?_⟩
  · simp [Unix.newServiceHandler]
  · intro h
    constructor <;> simp [Unix.Register, Unix.SetState, h]
  · intro ss
    cases ss with
    | mk ctx =>
      cases ctx with
      | false =>
        refine ⟨fun hne => ?_, fun hne => ?_⟩ <;>
          simp [Unix.Register, Unix.SetState] at hne
      | true => exact ⟨fun _ => rfl, fun _ => rfl⟩

/-- Witness for C8: the handler built with an empty notify-socket value
is a standalone no-op success for Register and for SetState. -/
theorem standalone_service_noop_witness :
    Unix.Register (Unix.newServiceHandler "") (Except.ok ()) =
      (Except.ok (), []) ∧
    Unix.SetState (Unix.newServiceHandler "") 5 (Except.ok ()) =
      (Except.ok (), []) := by
  have h := standalone_service_noop "" 5 (Except.ok ())
  exact h.2.1 h.1
